import Mathlib

/-!
Verification of the job scheduling and sandboxed execution core of the
Automa repository (backend/app). The Python services are shallowly
embedded as pure Lean functions: database state is passed explicitly as
lists of rows, the container engine is a behaviour parameter, and Python
exceptions are values of an explicit error type carried in Except.
-/

namespace Automa

/-- Decidable equality for Except values, used to decide concrete
evaluations of the embedded services. -/
instance exceptDecEq {ε α : Type} [DecidableEq ε] [DecidableEq α] :
    DecidableEq (Except ε α) := fun a b =>
  match a, b with
  | .ok x, .ok y =>
      if h : x = y then .isTrue (by rw [h]) else
        .isFalse (by intro hc; cases hc; exact h rfl)
  | .error x, .error y =>
      if h : x = y then .isTrue (by rw [h]) else
        .isFalse (by intro hc; cases hc; exact h rfl)
  | .ok _, .error _ => .isFalse (by intro hc; cases hc)
  | .error _, .ok _ => .isFalse (by intro hc; cases hc)

/-- Wall-clock instants, seconds since the epoch (UTC). -/
abbrev Time := Nat

/-- The Python exceptions that appear on the paths under verification. -/
inductive PyErr where
  | valueError (msg : String)
  | typeError (msg : String)
  | runtimeError (msg : String)
  | readTimeout
  | apiError (msg : String)
  | notFound
deriving DecidableEq

/-- The str(e) rendering used when an exception message is stored. -/
def errString : PyErr → String
  | .valueError m => m
  | .typeError m => m
  | .runtimeError m => m
  | .readTimeout => "ReadTimeout"
  | .apiError m => m
  | .notFound => "NotFound"

/-- Python truthiness of an optional integer (None and 0 are falsy),
as used by conditions of the form `job.interval_seconds`. -/
def truthyNat : Option Nat → Bool
  | none => false
  | some n => n != 0

/-- Python truthiness of an optional string (None and "" are falsy). -/
def truthyStr : Option String → Bool
  | none => false
  | some s => s != ""

/-- Script row, reduced to what the sandbox paths inspect: the identifier
and whether the file-path checks in SandboxService resolve to an existing
file (file_path / external_file_path existence). -/
structure Script where
  id : Nat
  fileFound : Bool
deriving DecidableEq

/-- Agent row (models.agent.Agent restricted to the fields the verified
services read): the loaded script relationship, the status string, the
container handle stored under config_json["container_id"], and the owner. -/
structure AgentRow where
  id : Nat
  script : Option Script
  status : String
  container_id : Option String
  created_by : Nat
deriving DecidableEq

/-- Job row (models.job.Job restricted to the fields the verified services
read), with the agent relationship loaded. -/
structure JobRow where
  id : Nat
  agent : Option AgentRow
  name : String
  schedule_type : String
  cron_expression : Option String
  interval_seconds : Option Nat
  next_run : Option Time
  is_active : Bool
  created_by : Nat
deriving DecidableEq

/-- What the docker engine does for one run-to-completion execution:
either the container exits within the wait timeout with an exit code and
combined logs, or the wait call times out (requests raises ReadTimeout),
or containers.run itself fails (engine unavailable, image missing, ...). -/
inductive DockerRunBehavior where
  | exitWithin (code : Int) (logs : String)
  | noExitWithinTimeout
  | runFailure (msg : String)
deriving DecidableEq

/-- The result dictionary returned by SandboxService.execute_script. -/
structure ExecResult where
  status : String
  exit_code : Int
  output : String
  error : Option String
deriving DecidableEq

/-- The return value of execute_script together with the externally
observable facts the timeout claim is about: whether the code ever issued
a stop/kill against the container, whether the container is still running
when the call returns, and whether logs were collected. -/
structure ScriptRunOutcome where
  ret : Except PyErr ExecResult
  runnerTerminatedContainer : Bool
  containerStillRunning : Bool
  logsCollected : Bool
deriving DecidableEq

/-- SandboxService.execute_script. The file-existence checks run before
the try block, so a missing file raises ValueError to the caller. Inside
the try block: containers.run detaches, container.wait(timeout=...)
either returns an exit status (logs are then fetched) or raises; every
raised exception, the wait timeout included, lands in the generic
`except Exception` handler which returns status "error" with exit code -1
and empty output. No branch of the function stops or kills the container,
so after a wait timeout the container keeps running. -/
def execute_script (script : Script) (behavior : DockerRunBehavior) :
    ScriptRunOutcome :=
  if !script.fileFound then
    ⟨.error (.valueError "Script file not found"), false, false, false⟩
  else
    match behavior with
    | .exitWithin code logs =>
        ⟨.ok ⟨if code == 0 then "success" else "failed", code, logs,
              if code == 0 then none else some logs⟩,
         false, false, true⟩
    | .noExitWithinTimeout =>
        ⟨.ok ⟨"error", -1, "", some (errString .readTimeout)⟩,
         false, true, false⟩
    | .runFailure msg =>
        ⟨.ok ⟨"error", -1, "", some msg⟩, false, false, false⟩

/-- The mapped columns of models.job.JobExecution (its __table__): every
attribute assignment outside this set is a plain Python attribute and is
not persisted by the session. -/
def jobExecutionColumns : List String :=
  ["id", "job_id", "started_at", "finished_at", "status", "output",
   "error_log", "exit_code"]

/-- A persisted JobExecution row: exactly the mapped columns. -/
structure JobExecutionRow where
  job_id : Nat
  started_at : Time
  finished_at : Option Time
  status : String
  output : Option String
  error_log : Option String
  exit_code : Option Int
deriving DecidableEq

/-- The in-memory JobExecution object: the mapped row plus the transient
error_message attribute that JobService.execute_job assigns, which is not
among jobExecutionColumns. -/
structure JobExecutionObj where
  row : JobExecutionRow
  error_message : Option String
deriving DecidableEq

/-- Committing an execution object persists only the mapped columns. -/
def persistExecution (e : JobExecutionObj) : JobExecutionRow := e.row

/-- JobService.get_job: select the job whose id and created_by both match
(scalar_one_or_none over the owner-filtered query). -/
def get_job (db : List JobRow) (job_id user_id : Nat) : Option JobRow :=
  db.find? (fun j => j.id == job_id && j.created_by == user_id)

/-- AgentService.get_agent: owner-filtered lookup of an agent. -/
def get_agent (db : List AgentRow) (agent_id user_id : Nat) :
    Option AgentRow :=
  db.find? (fun a => a.id == agent_id && a.created_by == user_id)

/-- The successful-result branch of execute_job: copy the sandbox result
dictionary into the execution object; error_message is assigned only when
result["error"] is truthy (non-None). -/
def finalizeWith (e : JobExecutionObj) (r : ExecResult) (tFin : Time) :
    JobExecutionObj :=
  { row := { e.row with
      status := r.status
      finished_at := some tFin
      output := some r.output
      exit_code := some r.exit_code }
    error_message := match r.error with
      | some err => some err
      | none => e.error_message }

/-- The outcome of JobService.execute_job: its return value (an exception
value when a ValueError escapes), the jobs table after the call, and the
execution rows this call persisted. -/
structure ExecuteJobOutcome where
  ret : Except PyErr (Option JobExecutionObj)
  jobs : List JobRow
  created : List JobExecutionObj
deriving DecidableEq

/-- JobService.execute_job. Owner-filtered job lookup returns None when
absent; a job whose agent (or agent script) is missing raises ValueError
before any execution row is created; otherwise an execution is created in
status "running" at tStart, the sandbox runs, the execution is finalized
at tFin (an exception from execute_script is caught and recorded as
status "failed" with exit code -1), and finally, for interval jobs with a
truthy interval_seconds, next_run is set to tNext + interval_seconds.
No other schedule kind has next_run touched by this function. -/
def execute_job (db : List JobRow) (job_id user_id : Nat)
    (behavior : DockerRunBehavior) (tStart tFin tNext : Time) :
    ExecuteJobOutcome :=
  match get_job db job_id user_id with
  | none => ⟨.ok none, db, []⟩
  | some job =>
    match job.agent with
    | none => ⟨.error (.valueError "Job agent has no script assigned"), db, []⟩
    | some agent =>
      match agent.script with
      | none =>
          ⟨.error (.valueError "Job agent has no script assigned"), db, []⟩
      | some script =>
        let e0 : JobExecutionObj :=
          ⟨⟨job.id, tStart, none, "running", none, none, none⟩, none⟩
        let e1 : JobExecutionObj :=
          match (execute_script script behavior).ret with
          | .ok r => finalizeWith e0 r tFin
          | .error err =>
              { row := { e0.row with
                  status := "failed"
                  finished_at := some tFin
                  exit_code := some (-1) }
                error_message := some (errString err) }
        let jobs1 : List JobRow :=
          if job.schedule_type == "interval" && truthyNat job.interval_seconds
          then
            db.map (fun j =>
              if j.id == job.id then
                { j with next_run := some (tNext + job.interval_seconds.getD 0) }
              else j)
          else db
        ⟨.ok (some e1), jobs1, [e1]⟩

/-- What the container engine does when stop_agent_container looks up a
handle: either the container exists (stop and remove then succeed), or
the handle is unknown (containers.get raises NotFound), or the engine
call fails with some other exception. -/
inductive EngineStopBehavior where
  | found
  | notFound
  | fails (msg : String)
deriving DecidableEq

/-- SandboxService.stop_agent_container, as a function of the engine
behaviour for the given handle. A NotFound on lookup is swallowed
(the container is already gone) and the call succeeds without issuing a
stop; any other exception is re-raised as RuntimeError. The Bool records
whether a container was actually stopped and removed. -/
def stop_agent_container (engine : String → EngineStopBehavior)
    (cid : String) : Except PyErr Bool :=
  match engine cid with
  | .found => .ok true
  | .notFound => .ok false
  | .fails msg => .error (.runtimeError msg)

/-- The parameter names of SandboxService.stop_agent_container
(self, container_id). There is no timeout parameter. -/
def stopAgentContainerParams : List String := ["self", "container_id"]

/-- Python call semantics for stop_agent_container with keyword
arguments: a keyword that is not a parameter name makes the call raise
TypeError before the body runs (and before any retry wrapper can matter,
since TypeError is not in the retried exception tuple). -/
def callStopAgentContainer (engine : String → EngineStopBehavior)
    (cid : String) (kwargs : List String) : Except PyErr Bool :=
  if kwargs.all (fun k => stopAgentContainerParams.contains k) then
    stop_agent_container engine cid
  else
    .error (.typeError "stop_agent_container got an unexpected keyword argument")

/-- The outcome of AgentService.stop_agent: the return value, the agents
table after the call, and the container handles for which a stop call
was issued against the sandbox service. -/
structure StopAgentOutcome where
  ret : Except PyErr (Option AgentRow)
  agents : List AgentRow
  containerStopCalls : List String
deriving DecidableEq

/-- AgentService.stop_agent. Owner-filtered lookup; an agent already in
status "stopped" is returned as-is with no container call; otherwise the
container handle, when present, is stopped via the sandbox service (a
failure there is logged and ignored, and the handle is then kept in the
config), the handle is cleared on success, and the status is set to
"stopped" in every case. -/
def stop_agent (db : List AgentRow) (agent_id user_id : Nat)
    (engine : String → EngineStopBehavior) : StopAgentOutcome :=
  match get_agent db agent_id user_id with
  | none => ⟨.ok none, db, []⟩
  | some agent =>
    if agent.status == "stopped" then ⟨.ok (some agent), db, []⟩
    else
      match agent.container_id with
      | none =>
        let a1 := { agent with status := "stopped" }
        ⟨.ok (some a1), db.map (fun x => if x.id == agent.id then a1 else x), []⟩
      | some cid =>
        match callStopAgentContainer engine cid [] with
        | .ok _ =>
          let a1 := { agent with status := "stopped", container_id := none }
          ⟨.ok (some a1), db.map (fun x => if x.id == agent.id then a1 else x),
           [cid]⟩
        | .error _ =>
          let a1 := { agent with status := "stopped" }
          ⟨.ok (some a1), db.map (fun x => if x.id == agent.id then a1 else x),
           [cid]⟩

/-- The outcome of AgentService.start_agent: the return value, the agents
table after the call, and how many detached container starts were
attempted against the sandbox service. -/
structure StartAgentOutcome where
  ret : Except PyErr (Option AgentRow)
  agents : List AgentRow
  containerStartsIssued : Nat
deriving DecidableEq

/-- AgentService.start_agent. Owner-filtered lookup returning None when
absent; an agent without a script raises ValueError; an agent already
"running" is returned unchanged with no container start; otherwise
start_agent_container is invoked (behaviour given by startContainer): on
success the status becomes "running" and the handle is stored in the
config, on failure the status becomes "error" and the exception is
re-raised to the caller. -/
def start_agent (db : List AgentRow) (agent_id user_id : Nat)
    (startContainer : Except PyErr String) : StartAgentOutcome :=
  match get_agent db agent_id user_id with
  | none => ⟨.ok none, db, 0⟩
  | some agent =>
    match agent.script with
    | none => ⟨.error (.valueError "Agent has no script assigned"), db, 0⟩
    | some _ =>
      if agent.status == "running" then ⟨.ok (some agent), db, 0⟩
      else
        match startContainer with
        | .ok cid =>
          let a1 := { agent with status := "running", container_id := some cid }
          ⟨.ok (some a1), db.map (fun x => if x.id == agent.id then a1 else x), 1⟩
        | .error e =>
          let a1 := { agent with status := "error" }
          ⟨.error e, db.map (fun x => if x.id == agent.id then a1 else x), 1⟩

/-- The update payload of JobService.update_job (JobUpdate with
exclude_unset: an outer none means the field was not supplied). -/
structure JobUpdatePayload where
  name : Option String
  schedule_type : Option String
  cron_expression : Option (Option String)
  interval_seconds : Option (Option Nat)
  is_active : Option Bool
deriving DecidableEq

/-- The setattr loop of update_job applied to a job row. -/
def applyJobUpdate (j : JobRow) (u : JobUpdatePayload) : JobRow :=
  { j with
    name := u.name.getD j.name
    schedule_type := u.schedule_type.getD j.schedule_type
    cron_expression := u.cron_expression.getD j.cron_expression
    interval_seconds := u.interval_seconds.getD j.interval_seconds
    is_active := u.is_active.getD j.is_active }

/-- JobService.update_job. Owner-filtered lookup returning None when
absent; the payload fields are applied; when any schedule field was in
the payload, next_run is recomputed (interval: now plus the interval;
cron: via the external croniter, an unparsable expression raising
ValueError before anything is committed); the updated row is committed.
The external cron computation is the cronNext parameter. -/
def update_job (db : List JobRow) (job_id user_id : Nat)
    (u : JobUpdatePayload) (cronNext : String → Time → Except PyErr Time)
    (now : Time) : Except PyErr (Option JobRow) × List JobRow :=
  match get_job db job_id user_id with
  | none => (.ok none, db)
  | some job =>
    let j1 := applyJobUpdate job u
    let scheduleChanged :=
      u.schedule_type.isSome || u.interval_seconds.isSome ||
        u.cron_expression.isSome
    let j2 : Except PyErr JobRow :=
      if scheduleChanged then
        if j1.schedule_type == "interval" && truthyNat j1.interval_seconds then
          .ok { j1 with next_run := some (now + j1.interval_seconds.getD 0) }
        else if j1.schedule_type == "cron" && truthyStr j1.cron_expression then
          match cronNext (j1.cron_expression.getD "") now with
          | .ok t => .ok { j1 with next_run := some t }
          | .error _ => .error (.valueError "Invalid cron expression")
        else .ok j1
      else .ok j1
    match j2 with
    | .error e => (.error e, db)
    | .ok jnew =>
      (.ok (some jnew), db.map (fun x => if x.id == job.id then jnew else x))

/-- JobService.delete_job. Owner-filtered lookup; False and no change
when absent, otherwise the row is deleted and True returned. -/
def delete_job (db : List JobRow) (job_id user_id : Nat) :
    Bool × List JobRow :=
  match get_job db job_id user_id with
  | none => (false, db)
  | some job => (true, db.filter (fun x => x.id != job.id))

/-- The retry loop of core.retry.retry_async, with the attempt index and
the remaining retries made explicit. The attempts function gives the
outcome of each call of the wrapped function; the returned list records
the sleeps performed between attempts (delay, then delay times backoff,
and so on). Attempt k succeeding stops the loop; a failing attempt with
retries remaining sleeps the current delay, multiplies it by backoff and
retries; a failing final attempt re-raises the last exception. -/
def retryAux {α : Type} (attempts : Nat → Except PyErr α) (backoff : Rat) :
    Nat → Nat → Rat → Except PyErr α × List Rat
  | 0, k, _ =>
    match attempts k with
    | .ok a => (.ok a, [])
    | .error e => (.error e, [])
  | r + 1, k, cur =>
    match attempts k with
    | .ok a => (.ok a, [])
    | .error _ =>
      let rest := retryAux attempts backoff r (k + 1) (cur * backoff)
      (rest.1, cur :: rest.2)

/-- core.retry.retry_async: up to max_retries + 1 attempts, sleeping
delay, delay * backoff, ... between consecutive failed attempts, and
raising the last exception once all attempts failed. -/
def retry_async {α : Type} (attempts : Nat → Except PyErr α)
    (max_retries : Nat) (delay backoff : Rat) : Except PyErr α × List Rat :=
  retryAux attempts backoff max_retries 0 delay

/-- The with_retry configuration placed on the detached start/stop path
(start_agent_container and stop_agent_container): max_retries = 3,
delay = 1.0 and the default backoff = 2.0. -/
def sandboxRetryConfig : Nat × Rat × Rat := (3, 1, 2)

/-- The outcome of core.shutdown.graceful_shutdown_agents: the agents
table after the sweep, the container handles actually stopped, the
shutdown and error counters, whether the final commit ran, and whether
an exception escaped the function. -/
structure ShutdownOutcome where
  agents : List AgentRow
  containersStopped : List String
  shutdown_count : Nat
  error_count : Nat
  committed : Bool
  raised : Bool
deriving DecidableEq

/-- One iteration of the per-agent loop in graceful_shutdown_agents,
applied to a running agent: with a recorded handle the code calls
sandbox.stop_agent_container(container_id, timeout=10) — a call carrying
a timeout keyword — and on success marks the agent "stopped" and clears
the handle; any exception from the call is caught and the agent is
marked "error"; without a handle the agent is marked "stopped" and
counted as an error. Returns the updated agent, the containers stopped,
and whether the error counter was incremented. -/
def shutdownStep (engine : String → EngineStopBehavior) (a : AgentRow) :
    AgentRow × List String × Bool :=
  match a.container_id with
  | some cid =>
    match callStopAgentContainer engine cid ["timeout"] with
    | .ok stopped =>
      ({ a with status := "stopped", container_id := none },
       if stopped then [cid] else [], false)
    | .error _ => ({ a with status := "error" }, [], true)
  | none => ({ a with status := "stopped" }, [], true)

/-- core.shutdown.graceful_shutdown_agents: select the agents in status
"running" (an empty selection returns early without committing), run the
per-agent loop, commit all status updates at the end, and catch any
exception at the outer level so the function never raises. -/
def graceful_shutdown_agents (db : List AgentRow)
    (engine : String → EngineStopBehavior) : ShutdownOutcome :=
  let running := db.filter (fun a => a.status == "running")
  if running.isEmpty then ⟨db, [], 0, 0, false, false⟩
  else
    let agents1 := db.map (fun a =>
      if a.status == "running" then (shutdownStep engine a).1 else a)
    let stopped := (running.map (fun a => (shutdownStep engine a).2.1)).flatten
    let errs :=
      (running.filter (fun a => (shutdownStep engine a).2.2)).length
    ⟨agents1, stopped, running.length - errs, errs, true, false⟩

/-- The application state touched by the FastAPI lifespan handler. -/
structure AppState where
  tablesCreated : Bool
  schedulerRunning : Bool
  schedule : List Nat
  agents : List AgentRow
  jobs : List JobRow

/-- The startup half of main.lifespan: create_db_and_tables followed by
init_scheduler, which starts the timer facility and loads every active
job into the live schedule. Nothing on this path reads or writes any
Agent row. -/
def lifespan_startup (s : AppState) : AppState :=
  { s with
    tablesCreated := true
    schedulerRunning := true
    schedule := (s.jobs.filter (fun j => j.is_active)).map (fun j => j.id) }

/-- The state the scheduler dispatch callback operates on: the jobs and
executions tables, the live schedule (scheduled job ids) and the user
ids present in the users table. -/
structure SchedState where
  jobs : List JobRow
  executions : List JobExecutionObj
  schedule : List Nat
  users : List Nat

/-- The outcome of one dispatch: the resulting state, whether an
exception escaped the callback into the timer facility, and whether an
error was logged. -/
structure DispatchOutcome where
  st : SchedState
  raised : Bool
  loggedError : Bool

/-- The body of the try block of SchedulerService._execute_job: load the
job by id (logged error when absent), skip inactive jobs, load the owner
(logged error when absent), run JobService.execute_job as that owner
(its ValueError propagates here as an exception), and for "once" jobs
deactivate the job and remove it from the live schedule. The Bool in the
result records whether an error was logged. -/
def dispatch_body (st : SchedState) (job_id : Nat)
    (behavior : DockerRunBehavior) (tStart tFin tNext : Time) :
    Except PyErr (SchedState × Bool) :=
  match st.jobs.find? (fun j => j.id == job_id) with
  | none => .ok (st, true)
  | some job =>
    if !job.is_active then .ok (st, false)
    else if !st.users.contains job.created_by then .ok (st, true)
    else
      let out := execute_job st.jobs job_id job.created_by behavior
        tStart tFin tNext
      match out.ret with
      | .error e => .error e
      | .ok ex =>
        let st1 : SchedState :=
          { st with jobs := out.jobs, executions := st.executions ++ out.created }
        let logged := ex.isNone
        if job.schedule_type == "once" then
          .ok ({ st1 with
                  jobs := st1.jobs.map (fun j =>
                    if j.id == job.id then { j with is_active := false } else j)
                  schedule := st1.schedule.filter (fun i => i != job.id) },
               logged)
        else .ok (st1, logged)

/-- SchedulerService._execute_job, the dispatch callback handed to the
timer facility: the whole body runs under a try whose except clause logs
the error and rolls the session back, so the callback returns normally
on every input. The ValueError raised by execute_job for a job whose
agent has no script is raised before anything was committed, so the
rolled-back state is the input state. -/
def scheduler_execute_job (st : SchedState) (job_id : Nat)
    (behavior : DockerRunBehavior) (tStart tFin tNext : Time) :
    DispatchOutcome :=
  match dispatch_body st job_id behavior tStart tFin tNext with
  | .ok (st1, logged) => ⟨st1, false, logged⟩
  | .error _ => ⟨st, false, true⟩

/-! Concrete sample rows and states used to evaluate the embedded
services at specific inputs. -/

/-- An agent whose script relationship is empty. -/
def noScriptAgent : AgentRow := ⟨4, none, "stopped", none, 7⟩

/-- An active interval job bound to the script-less agent. -/
def noScriptJob : JobRow :=
  ⟨1, some noScriptAgent, "daily sync", "interval", none, some 60, some 50,
   true, 7⟩

/-- A scheduler state holding only the script-less job. -/
def noScriptState : SchedState := ⟨[noScriptJob], [], [1], [7]⟩

/-- A script whose file path resolves. -/
def cronScript : Script := ⟨9, true⟩

/-- An agent bound to cronScript. -/
def cronAgent : AgentRow := ⟨3, some cronScript, "stopped", none, 5⟩

/-- An active cron job with a stale persisted next_run of 100. -/
def cronJob : JobRow :=
  ⟨2, some cronAgent, "nightly", "cron", some "0 0 * * *", none, some 100,
   true, 5⟩

/-- A running agent with a recorded container handle, as found by the
graceful shutdown sweep. -/
def shutdownAgent : AgentRow := ⟨1, none, "running", some "c1", 7⟩

/-- An agent bound to cronScript, used for interval dispatches. -/
def intervalAgent : AgentRow := ⟨8, some cronScript, "stopped", none, 7⟩

/-- An active interval job (60 seconds) bound to intervalAgent. -/
def intervalJob : JobRow :=
  ⟨6, some intervalAgent, "poller", "interval", none, some 60, some 250,
   true, 7⟩

/-- An active once job bound to intervalAgent, in a schedulable state. -/
def onceJob : JobRow :=
  ⟨10, some intervalAgent, "one shot", "once", none, none, some 400, true, 7⟩

/-- A job owned by user 2, to be probed by user 1. -/
def otherJob : JobRow := ⟨11, none, "theirs", "once", none, none, some 5, true, 2⟩

/-- An agent owned by user 2, to be probed by user 1. -/
def otherAgent : AgentRow := ⟨12, none, "stopped", none, 2⟩

/-- The execution object produced by dispatching cronJob against a
container that never exits within the wait timeout. -/
def timedOutExecution : JobExecutionObj :=
  ⟨⟨2, 10, some 11, "error", some "", none, some (-1)⟩, some "ReadTimeout"⟩

/-- C1: the claim says a wall-clock timeout yields status "timeout", a
forcibly terminated container and an attempt at partial output. The code
disagrees: container.wait raising on timeout lands in the generic except
handler of execute_script, which returns status "error" with exit code
-1 and empty output, never terminates the container (it keeps running)
and collects no logs — even though the JobExecution model documents
"timeout" as an expected status. -/
theorem execute_script_timeout_yields_error_and_leaves_container :
    (execute_script ⟨1, true⟩ .noExitWithinTimeout).ret =
      .ok ⟨"error", -1, "", some "ReadTimeout"⟩ ∧
    (execute_script ⟨1, true⟩ .noExitWithinTimeout).runnerTerminatedContainer
      = false ∧
    (execute_script ⟨1, true⟩ .noExitWithinTimeout).containerStillRunning
      = true ∧
    (execute_script ⟨1, true⟩ .noExitWithinTimeout).logsCollected = false ∧
    ("error" : String) ≠ "timeout" := by
  decide

/-- C4: the claim says the shutdown sweep stops each running agent
container with a 10 second timeout and marks the agent "stopped". The
code calls stop_agent_container(container_id, timeout=10), but that
method has no timeout parameter, so the call raises TypeError, the
per-agent handler marks the agent "error", and no container is stopped:
for one running agent with a handle the engine knows, the sweep stops
nothing, counts one error, and leaves the agent in status "error". -/
theorem graceful_shutdown_marks_error_and_stops_nothing :
    graceful_shutdown_agents [shutdownAgent] (fun _ => .found) =
      ⟨[⟨1, none, "error", some "c1", 7⟩], [], 0, 1, true, false⟩ := by
  decide

/-- C5 (amended): process startup performs no revalidation of persisted
Agent rows: the lifespan handler only creates tables and initializes the
scheduler, and leaves every Agent row, running ones included,
untouched. -/
theorem lifespan_startup_preserves_agents (s : AppState) :
    (lifespan_startup s).agents = s.agents := rfl

/-- C5 (counterexample): an Agent persisted as "running" whose handle no
engine knows still has status "running" after startup — neither
"stopped" nor "error" — refuting the claimed startup revalidation. -/
theorem startup_leaves_running_agent_unrevalidated_cex :
    ((lifespan_startup
        ⟨false, false, [], [⟨1, none, "running", some "ghost", 7⟩], []⟩).agents.map
      (fun a => a.status)) = ["running"] ∧
    ("running" : String) ≠ "stopped" ∧ ("running" : String) ≠ "error" := by
  decide

/-- C9: every execution row persisted by execute_job has a null
error_log column, whatever the sandbox did: the error detail goes into
the error_message attribute, which is not among the mapped columns of
the JobExecution model, so captured error text is never persisted. -/
theorem error_log_never_persisted
    (db : List JobRow) (job_id user_id : Nat) (behavior : DockerRunBehavior)
    (tStart tFin tNext : Time) (e : JobExecutionObj)
    (h : e ∈ (execute_job db job_id user_id behavior tStart tFin tNext).created) :
    (persistExecution e).error_log = none ∧
      "error_message" ∉ jobExecutionColumns := by
  refine ⟨?_, by decide⟩
  rcases hget : get_job db job_id user_id with _ | job
  · simp [execute_job, hget] at h
  · rcases hag : job.agent with _ | agent
    · simp [execute_job, hget, hag] at h
    · rcases hs : agent.script with _ | script
      · simp [execute_job, hget, hag, hs] at h
      · simp only [execute_job, hget, hag, hs, List.mem_singleton] at h
        subst h
        cases hr : (execute_script script behavior).ret with
        | ok r => simp [hr, persistExecution, finalizeWith]
        | error err => simp [hr, persistExecution]

/-- C9 witness: the concrete cron dispatch against a never-exiting
container persists an execution whose error_log is null while the error
text sits in the unmapped error_message attribute. -/
theorem error_log_never_persisted_witness :
    (persistExecution timedOutExecution).error_log = none ∧
      "error_message" ∉ jobExecutionColumns :=
  error_log_never_persisted [cronJob] 2 5 .noExitWithinTimeout 10 11 12
    timedOutExecution (by decide)

/-- C2 (counterexample): dispatching the job whose agent has no script
creates no Execution record at all — the executions table stays empty —
refuting the claim that a "failed" Execution is created for such a
dispatch. -/
theorem dispatch_no_script_creates_no_execution_cex :
    (scheduler_execute_job noScriptState 1 (.exitWithin 0 "") 100 101 102).st.executions
      = [] ∧
    (scheduler_execute_job noScriptState 1 (.exitWithin 0 "") 100 101 102).loggedError
      = true := by
  decide

/-- C2 (amended): a dispatch of an active job whose agent has no script
raises ValueError inside execute_job before any Execution row is
created; the dispatch callback catches the exception, logs it and rolls
back, returning normally with the state unchanged — so nothing escapes
to the timer facility, but no "failed" Execution is created either. -/
theorem dispatch_no_script_caught_at_boundary
    (st : SchedState) (job_id : Nat) (behavior : DockerRunBehavior)
    (t1 t2 t3 : Time) (job : JobRow)
    (hfind : st.jobs.find? (fun j => j.id == job_id) = some job)
    (hact : job.is_active = true)
    (howner : st.users.contains job.created_by = true)
    (hget : get_job st.jobs job_id job.created_by = some job)
    (hnoscript : job.agent = none ∨ ∃ a, job.agent = some a ∧ a.script = none) :
    dispatch_body st job_id behavior t1 t2 t3 =
      .error (.valueError "Job agent has no script assigned") ∧
    scheduler_execute_job st job_id behavior t1 t2 t3 = ⟨st, false, true⟩ := by
  have howner1 : job.created_by ∈ st.users := by
    simpa using howner
  have hbody : dispatch_body st job_id behavior t1 t2 t3 =
      .error (.valueError "Job agent has no script assigned") := by
    rcases hnoscript with hag | ⟨a, hag, hs⟩
    · simp [dispatch_body, hfind, hact, howner1, execute_job, hget, hag]
    · simp [dispatch_body, hfind, hact, howner1, execute_job, hget, hag, hs]
  exact ⟨hbody, by simp [scheduler_execute_job, hbody]⟩

/-- C2 witness: the amended behaviour at the concrete script-less job. -/
theorem dispatch_no_script_caught_at_boundary_witness :
    dispatch_body noScriptState 1 (.exitWithin 0 "") 100 101 102 =
      .error (.valueError "Job agent has no script assigned") ∧
    scheduler_execute_job noScriptState 1 (.exitWithin 0 "") 100 101 102 =
      ⟨noScriptState, false, true⟩ :=
  dispatch_no_script_caught_at_boundary noScriptState 1 (.exitWithin 0 "")
    100 101 102 noScriptJob (by decide) (by decide) (by decide) (by decide)
    (Or.inr ⟨noScriptAgent, rfl, rfl⟩)

/-- C3 (counterexample): a dispatch of a cron job finalizes an execution
but does not recompute the persisted next_run: the job row keeps its
stale next_run of 100 even though "now" at recomputation is 202, so the
claimed recompute-and-persist does not happen for cron jobs. -/
theorem cron_dispatch_does_not_recompute_next_run_cex :
    (execute_job [cronJob] 2 5 (.exitWithin 0 "ok") 200 201 202).jobs
      = [cronJob] ∧
    cronJob.next_run = some 100 ∧
    (execute_job [cronJob] 2 5 (.exitWithin 0 "ok") 200 201 202).created.length
      = 1 := by
  decide

/-- C3 (amended): only interval jobs have next_run recomputed by a
dispatch — execute_job sets it to now + interval_seconds, which lies in
the closed interval from now to now + n and is strictly greater than any
fire time at or before now; the persisted next_run of cron jobs is left
untouched. -/
theorem interval_dispatch_recomputes_next_run
    (db : List JobRow) (job_id user_id : Nat) (behavior : DockerRunBehavior)
    (tStart tFin tNext fire : Nat) (job : JobRow) (a : AgentRow)
    (s : Script) (n : Nat)
    (hget : get_job db job_id user_id = some job)
    (hag : job.agent = some a) (hs : a.script = some s)
    (htype : job.schedule_type = "interval")
    (hn : job.interval_seconds = some n) (hpos : 0 < n)
    (hfire : fire ≤ tNext) :
    (∀ j ∈ (execute_job db job_id user_id behavior tStart tFin tNext).jobs,
        j.id = job.id → j.next_run = some (tNext + n)) ∧
    tNext ≤ tNext + n ∧ tNext + n ≤ tNext + n ∧ fire < tNext + n := by
  have hnz : (n != 0) = true := by
    simp [bne_iff_ne]
    omega
  refine ⟨?_, by omega, by omega, by omega⟩
  intro j hj hid
  simp only [execute_job, hget, hag, hs, htype, hn, truthyNat, hnz,
    beq_self_eq_true, Bool.and_self, Bool.and_true, Bool.true_and,
    if_true] at hj
  rcases List.mem_map.mp hj with ⟨x, _, hx⟩
  by_cases hxid : x.id == job.id
  · rw [if_pos hxid] at hx
    rw [← hx]
    simp [hn]
  · rw [if_neg hxid] at hx
    subst hx
    exact absurd (by simp [hid]) hxid

/-- C3 witness: the amended interval behaviour at a concrete job. -/
theorem interval_dispatch_recomputes_next_run_witness :
    (∀ j ∈ (execute_job [intervalJob] 6 7 (.exitWithin 0 "") 300 301 302).jobs,
        j.id = intervalJob.id → j.next_run = some (302 + 60)) ∧
    (302 : Nat) ≤ 302 + 60 ∧ (302 : Nat) + 60 ≤ 302 + 60 ∧
    (300 : Nat) < 302 + 60 :=
  interval_dispatch_recomputes_next_run [intervalJob] 6 7 (.exitWithin 0 "")
    300 301 302 300 intervalJob intervalAgent cronScript 60 (by decide) rfl
    rfl rfl rfl (by decide) (by decide)

/-- Helper: with the job, its agent and its script all present,
execute_job returns some finalized execution (no exception escapes). -/
theorem execute_job_ret_isOk (db : List JobRow) (job_id user_id : Nat)
    (behavior : DockerRunBehavior) (t1 t2 t3 : Nat) (job : JobRow)
    (a : AgentRow) (s : Script)
    (hget : get_job db job_id user_id = some job)
    (ha : job.agent = some a) (hs : a.script = some s) :
    ∃ e, (execute_job db job_id user_id behavior t1 t2 t3).ret
      = .ok (some e) := by
  simp only [execute_job, hget, ha, hs]
  exact ⟨_, rfl⟩

/-- Helper: execute_job leaves the jobs table unchanged for every
non-interval schedule kind. -/
theorem execute_job_jobs_not_interval (db : List JobRow)
    (job_id user_id : Nat) (behavior : DockerRunBehavior) (t1 t2 t3 : Nat)
    (job : JobRow) (a : AgentRow) (s : Script)
    (hget : get_job db job_id user_id = some job)
    (ha : job.agent = some a) (hs : a.script = some s)
    (hni : ((job.schedule_type == "interval") : Bool) = false) :
    (execute_job db job_id user_id behavior t1 t2 t3).jobs = db := by
  simp [execute_job, hget, ha, hs, hni]

/-- C6: a dispatch of an active once job whose run succeeds leaves the
job deactivated in the jobs table and removes it from the live
schedule, and the callback returns normally, so no second automatic
dispatch can occur. -/
theorem once_job_deactivated_after_dispatch
    (st : SchedState) (job_id : Nat) (logs : String) (t1 t2 t3 : Nat)
    (job : JobRow) (a : AgentRow) (s : Script)
    (hfind : st.jobs.find? (fun j => j.id == job_id) = some job)
    (hact : job.is_active = true)
    (howner : st.users.contains job.created_by = true)
    (hget : get_job st.jobs job_id job.created_by = some job)
    (ha : job.agent = some a) (hs : a.script = some s)
    (honce : job.schedule_type = "once") :
    (∀ j ∈ (scheduler_execute_job st job_id (.exitWithin 0 logs) t1 t2 t3).st.jobs,
        j.id = job.id → j.is_active = false) ∧
    job.id ∉ (scheduler_execute_job st job_id (.exitWithin 0 logs) t1 t2 t3).st.schedule ∧
    (scheduler_execute_job st job_id (.exitWithin 0 logs) t1 t2 t3).raised
      = false := by
  have howner1 : job.created_by ∈ st.users := by simpa using howner
  have hni : ((job.schedule_type == "interval") : Bool) = false := by
    rw [honce]; decide
  have hob : ((job.schedule_type == "once") : Bool) = true := by
    rw [honce]; decide
  obtain ⟨e, hret⟩ := execute_job_ret_isOk st.jobs job_id job.created_by
    (.exitWithin 0 logs) t1 t2 t3 job a s hget ha hs
  have hjobs := execute_job_jobs_not_interval st.jobs job_id job.created_by
    (.exitWithin 0 logs) t1 t2 t3 job a s hget ha hs hni
  refine ⟨?_, ?_, ?_⟩
  · intro j hj hid
    simp [scheduler_execute_job, dispatch_body, hfind, hact, howner1,
      hret, hjobs, hob] at hj
    rcases hj with ⟨x, _, hx⟩
    by_cases hxid : x.id = job.id
    · rw [if_pos hxid] at hx
      rw [← hx]
    · rw [if_neg hxid] at hx
      subst hx
      exact absurd hid hxid
  · intro hmem
    simp [scheduler_execute_job, dispatch_body, hfind, hact, howner1,
      hret, hjobs, hob] at hmem
  · simp [scheduler_execute_job, dispatch_body, hfind, hact, howner1,
      hret, hjobs, hob]

/-- C6 witness: the once job at a concrete state. -/
theorem once_job_deactivated_after_dispatch_witness :
    (∀ j ∈ (scheduler_execute_job ⟨[onceJob], [], [10], [7]⟩ 10
        (.exitWithin 0 "done") 400 401 402).st.jobs,
        j.id = onceJob.id → j.is_active = false) ∧
    onceJob.id ∉ (scheduler_execute_job ⟨[onceJob], [], [10], [7]⟩ 10
        (.exitWithin 0 "done") 400 401 402).st.schedule ∧
    (scheduler_execute_job ⟨[onceJob], [], [10], [7]⟩ 10
        (.exitWithin 0 "done") 400 401 402).raised = false :=
  once_job_deactivated_after_dispatch ⟨[onceJob], [], [10], [7]⟩ 10 "done"
    400 401 402 onceJob intervalAgent cronScript (by decide) rfl (by decide)
    (by decide) rfl rfl rfl

/-- Helper: when every attempt fails, the retry loop runs all remaining
attempts, sleeps the geometric delays, and surfaces the error of the
last attempt. -/
theorem retryAux_all_fail {α : Type} (attempts : Nat → Except PyErr α)
    (es : Nat → PyErr) (h : ∀ k, attempts k = .error (es k)) (b : Rat) :
    ∀ (r k : Nat) (cur : Rat),
      retryAux attempts b r k cur =
        (.error (es (k + r)), (List.range r).map (fun i => cur * b ^ i)) := by
  intro r
  induction r with
  | zero =>
      intro k cur
      simp [retryAux, h]
  | succ m ih =>
      intro k cur
      simp only [retryAux, h k, ih (k + 1) (cur * b), Prod.mk.injEq]
      have hk : k + 1 + m = k + (m + 1) := by omega
      refine ⟨by rw [hk], ?_⟩
      rw [List.range_succ_eq_map]
      simp only [List.map_cons, List.map_map, pow_zero, mul_one]
      have hfun : ((fun i => cur * b ^ i) ∘ Nat.succ) =
          (fun i => cur * b * b ^ i) := by
        funext i
        simp only [Function.comp_apply, pow_succ]
        ring
      rw [hfun]

/-- C7: with the retry configuration placed on the detached start/stop
path (max_retries 3, delay 1 second, backoff 2), a call whose every
attempt raises a retryable error is retried with the delay doubling
after each attempt (sleeps 1, 2, 4) and, once the bounded attempts are
exhausted, the error of the last attempt is raised to the caller. -/
theorem retry_exhaustion_surfaces_last_error {α : Type}
    (attempts : Nat → Except PyErr α) (es : Nat → PyErr)
    (h : ∀ k, attempts k = .error (es k)) :
    retry_async attempts 3 1 2 = (.error (es 3), [1, 2, 4]) ∧
    sandboxRetryConfig = (3, 1, 2) := by
  refine ⟨?_, rfl⟩
  rw [show retry_async attempts 3 1 2 = retryAux attempts 2 3 0 1 from rfl,
    retryAux_all_fail attempts es h 2 3 0 1]
  norm_num
  decide

/-- C7 witness: a concrete always-failing engine call. -/
theorem retry_exhaustion_surfaces_last_error_witness :
    retry_async (fun _ => (.error (.apiError "engine down") :
        Except PyErr String)) 3 1 2 =
      (.error (.apiError "engine down"), [1, 2, 4]) ∧
    sandboxRetryConfig = (3, 1, 2) :=
  retry_exhaustion_surfaces_last_error
    (fun _ => .error (.apiError "engine down"))
    (fun _ => .apiError "engine down") (fun _ => rfl)

/-- C8: stopping an already-stopped agent returns the stopped agent,
changes nothing and issues no container-stop call, and doing it twice
gives the same result both times; and stopping a detached container
whose handle the engine does not know succeeds (NotFound is swallowed)
rather than erroring. -/
theorem stop_agent_idempotent_and_notfound_success
    (db : List AgentRow) (agent_id user_id : Nat)
    (engine : String → EngineStopBehavior) (a : AgentRow)
    (hget : get_agent db agent_id user_id = some a)
    (hstopped : a.status = "stopped") :
    stop_agent db agent_id user_id engine = ⟨.ok (some a), db, []⟩ ∧
    stop_agent (stop_agent db agent_id user_id engine).agents agent_id
        user_id engine = ⟨.ok (some a), db, []⟩ ∧
    ∀ cid, engine cid = .notFound →
      stop_agent_container engine cid = .ok false := by
  have hsb : ((a.status == "stopped") : Bool) = true := by
    rw [hstopped]; decide
  have h1 : stop_agent db agent_id user_id engine = ⟨.ok (some a), db, []⟩ := by
    simp [stop_agent, hget, hsb]
  refine ⟨h1, ?_, ?_⟩
  · rw [h1]
    exact h1
  · intro cid hcid
    simp [stop_agent_container, hcid]

/-- C8 witness: the concrete stopped agent probed twice, against an
engine that knows no handle. -/
theorem stop_agent_idempotent_and_notfound_success_witness :
    stop_agent [noScriptAgent] 4 7 (fun _ => .notFound) =
      ⟨.ok (some noScriptAgent), [noScriptAgent], []⟩ ∧
    stop_agent (stop_agent [noScriptAgent] 4 7 (fun _ => .notFound)).agents
        4 7 (fun _ => .notFound) =
      ⟨.ok (some noScriptAgent), [noScriptAgent], []⟩ ∧
    ∀ cid, (fun _ => EngineStopBehavior.notFound) cid = .notFound →
      stop_agent_container (fun _ => .notFound) cid = .ok false :=
  stop_agent_idempotent_and_notfound_success [noScriptAgent] 4 7
    (fun _ => .notFound) noScriptAgent (by decide) rfl

/-- C10: a user who does not own a job or agent gets None (or False)
from get_job, update_job, delete_job, execute_job, get_agent,
start_agent and stop_agent, with the stored rows unchanged, no
execution created and no container call issued. -/
theorem owner_isolation
    (jdb : List JobRow) (adb : List AgentRow) (jid aid uid : Nat)
    (hj : ∀ r ∈ jdb, r.id = jid → r.created_by ≠ uid)
    (ha : ∀ r ∈ adb, r.id = aid → r.created_by ≠ uid) :
    get_job jdb jid uid = none ∧
    (∀ u cronNext now, update_job jdb jid uid u cronNext now = (.ok none, jdb)) ∧
    delete_job jdb jid uid = (false, jdb) ∧
    (∀ behavior t1 t2 t3,
        execute_job jdb jid uid behavior t1 t2 t3 = ⟨.ok none, jdb, []⟩) ∧
    get_agent adb aid uid = none ∧
    (∀ sc, start_agent adb aid uid sc = ⟨.ok none, adb, 0⟩) ∧
    (∀ engine, stop_agent adb aid uid engine = ⟨.ok none, adb, []⟩) := by
  have hjn : get_job jdb jid uid = none := by
    apply List.find?_eq_none.mpr
    intro x hx
    simp only [Bool.and_eq_true, beq_iff_eq, not_and]
    intro h1
    exact hj x hx h1
  have han : get_agent adb aid uid = none := by
    apply List.find?_eq_none.mpr
    intro x hx
    simp only [Bool.and_eq_true, beq_iff_eq, not_and]
    intro h1
    exact ha x hx h1
  refine ⟨hjn, ?_, ?_, ?_, han, ?_, ?_⟩
  · intro u cronNext now
    simp [update_job, hjn]
  · simp [delete_job, hjn]
  · intro behavior t1 t2 t3
    simp [execute_job, hjn]
  · intro sc
    simp [start_agent, han]
  · intro engine
    simp [stop_agent, han]

/-- C10 witness: user 1 probing a job and an agent owned by user 2. -/
theorem owner_isolation_witness :
    get_job [otherJob] 11 1 = none ∧
    (∀ u cronNext now,
        update_job [otherJob] 11 1 u cronNext now = (.ok none, [otherJob])) ∧
    delete_job [otherJob] 11 1 = (false, [otherJob]) ∧
    (∀ behavior t1 t2 t3, execute_job [otherJob] 11 1 behavior t1 t2 t3 =
        ⟨.ok none, [otherJob], []⟩) ∧
    get_agent [otherAgent] 12 1 = none ∧
    (∀ sc, start_agent [otherAgent] 12 1 sc = ⟨.ok none, [otherAgent], 0⟩) ∧
    (∀ engine, stop_agent [otherAgent] 12 1 engine =
        ⟨.ok none, [otherAgent], []⟩) :=
  owner_isolation [otherJob] [otherAgent] 11 12 1
    (by intro r hr h1; rw [List.mem_singleton] at hr; subst hr; decide)
    (by intro r hr h1; rw [List.mem_singleton] at hr; subst hr; decide)

end Automa
